import Mathlib

/-!
Shallow embedding of the AutoHotkey lexer of this repository
(`src/lexilla/lexers/LexAhk.cxx`): the character predicates, the send-key
validator `GetSendKey`, the continuation-line test `IsContinuationLine`,
the scanner `ColouriseAhkDoc` (including its restart prologue), and the
fold calculator `FoldAhkDoc`.

Documents are modelled as `List Char` with LF line ends; the style buffer
is a `List AhkStyle`; word lists are `List (List Char)`.

The driver object `StyleContext` is repository infrastructure that is not
under `src/`.  Modelled from the spec (§4.1): the scan is driven
character-by-character over exactly the requested span, the final token of
the span has not yet ended when the loop terminates (no virtual
terminating character is injected), `chPrev` is 0 at the first processed
position, `SetState s` closes the current run (styling it with the
current state) at the previous position, `ForwardSetState s` first
consumes the current character into the run, and `atLineEnd` holds at a
line-feed character and past the end of the document.
-/

set_option maxRecDepth 40000

/-- NUL, the out-of-range result of `SafeGetCharAt`. -/
def chNul : Char := Char.ofNat 0

/-- The double-quote character. -/
def chDQuote : Char := Char.ofNat 34

/-- The single-quote character. -/
def chSQuote : Char := Char.ofNat 39

/-- The backquote escape introducer used in strings. -/
def chBacktick : Char := Char.ofNat 96

/-- Opening curly bracket. -/
def chLBrace : Char := Char.ofNat 123

/-- Closing curly bracket. -/
def chRBrace : Char := Char.ofNat 125

/-- C `isdigit` / Lexilla `IsADigit`. -/
def IsADigit (ch : Char) : Bool := '0' ≤ ch ∧ ch ≤ '9'

/-- ASCII `isalnum` (C locale). -/
def isalnumAscii (ch : Char) : Bool :=
  ('0' ≤ ch ∧ ch ≤ '9') ∨ ('a' ≤ ch ∧ ch ≤ 'z') ∨ ('A' ≤ ch ∧ ch ≤ 'Z')

/-- `IsTypeCharacter` from LexAhk.cxx: only `$`. -/
def IsTypeCharacter (ch : Char) : Bool := ch = '$'

/-- `IsAWordChar` from LexAhk.cxx. -/
def IsAWordChar (ch : Char) : Bool :=
  0 < ch.toNat ∧ ch.toNat < 0x80 ∧ (isalnumAscii ch ∨ ch = '_')

/-- `IsAWordStart` from LexAhk.cxx. -/
def IsAWordStart (ch : Char) : Bool :=
  0 < ch.toNat ∧ ch.toNat < 0x80 ∧
    (isalnumAscii ch ∨ ch = '_' ∨ ch = '@' ∨ ch = '#' ∨ ch = '$' ∨ ch = '.')

/-- `IsAOperator` from LexAhk.cxx. -/
def IsAOperator (ch : Char) : Bool :=
  if ch.toNat < 0x80 ∧ isalnumAscii ch then false
  else if 0x80 < ch.toNat then false
  else if ch = '+' ∨ ch = '-' ∨ ch = '*' ∨ ch = '/' ∨ ch = '&' ∨ ch = '^' ∨
          ch = '=' ∨ ch = '<' ∨ ch = '>' ∨ ch = ',' ∨ ch = '%' then true
  else false

/-- Scintilla `isspacechar`. -/
def isspacechar (ch : Char) : Bool := ch = ' ' ∨ (9 ≤ ch.toNat ∧ ch.toNat ≤ 13)

/-- ASCII `tolower`. -/
def toLowerAscii (ch : Char) : Char :=
  if 'A' ≤ ch ∧ ch ≤ 'Z' then Char.ofNat (ch.toNat + 32) else ch

/-- `styler.SafeGetCharAt`: document read, NUL when out of range. -/
def charAt (doc : List Char) (i : Nat) : Char := doc.getD i chNul

/-- Helper for `lineStart`: walk the document counting line feeds. -/
def lineStartGo : List Char → Nat → Nat → Nat
  | _, 0, pos => pos
  | [], _ + 1, pos => pos
  | c :: rest, n + 1, pos =>
      if c = '\n' then lineStartGo rest n (pos + 1) else lineStartGo rest (n + 1) (pos + 1)

/-- `styler.LineStart line`: offset of the first character of `line`
(document length when `line` is past the last line). -/
def lineStart (doc : List Char) (line : Nat) : Nat := lineStartGo doc line 0

/-- `styler.GetLine pos`: index of the line containing offset `pos`. -/
def getLine (doc : List Char) (pos : Nat) : Nat :=
  ((doc.take pos).filter (fun c => c = '\n')).length

/-- `sc.atLineEnd` at offset `i` for an LF document: at a line feed, or past
the end of the document. -/
def atLineEndAt (doc : List Char) (i : Nat) : Bool :=
  doc.length ≤ i ∨ charAt doc i = '\n'

/-- The SCE_AHK style tags used by the lexer. -/
inductive AhkStyle where
  | DEFAULT
  | COMMENT
  | COMMENTBLOCK
  | NUMBER
  | KEYWORD
  | KEYWORD2
  | KEYWORD3
  | KEYWORD4
  | KEYWORD5
  | KEYWORD6
  | KEYWORD7
  | KEYWORD8
  | VARIABLE
  | OPERATOR
  | STRING
  | ASSIGNMENT
  | COMOBJ
  | FOLD
  deriving DecidableEq, Repr

/-- `styler.StyleAt`: recorded style at an offset, `DEFAULT` (0) when the
offset is outside the styled region. -/
def styleAt (styles : List AhkStyle) (pos : Nat) : AhkStyle := styles.getD pos .DEFAULT

/-- The eight keyword tables handed to `ColouriseAhkDoc`. -/
structure AhkTables where
  k1 : List (List Char)
  k2 : List (List Char)
  k3 : List (List Char)
  k4 : List (List Char)
  k5 : List (List Char)
  k6 : List (List Char)
  k7 : List (List Char)
  k8 : List (List Char)

/-- `WordList::InList`: exact membership of a word in a table. -/
def inList (l : List (List Char)) (w : List Char) : Bool := w ∈ l

/-- State threaded through the `GetSendKey` splitting loop. -/
structure SendKeySt where
  nFlag : Nat
  nStartFound : Nat
  nSpecNum : Nat
  key : List Char
  special : List Char

/-- The character loop of `GetSendKey` (LexAhk.cxx lines 120–153): split the
bracketed send-key text into the part before the first space (with a `}`
appended) and the modifier part after it, tracking whether the modifier is
all digits. -/
def GetSendKeyGo : List Char → SendKeySt → SendKeySt
  | [], s => s
  | c :: rest, s =>
      let s := if c = chLBrace then { s with nStartFound := 1 } else s
      if s.nStartFound = 1 then
        if c = ' ' ∧ s.nFlag = 0 then
          GetSendKeyGo rest { s with nFlag := 1, key := s.key ++ [chRBrace] }
        else if c = ' ' then
          GetSendKeyGo rest s
        else if s.nFlag = 0 then
          GetSendKeyGo rest { s with key := s.key ++ [c] }
        else if s.nFlag = 1 ∧ c ≠ chRBrace then
          GetSendKeyGo rest
            { s with special := s.special ++ [c],
                     nSpecNum := if IsADigit c then s.nSpecNum else 0 }
        else
          GetSendKeyGo rest s
      else
        GetSendKeyGo rest s

/-- `GetSendKey` (LexAhk.cxx lines 108–171): returns the validation flag
(0 good, 1 bad) and the extracted key text.  The modifier is valid when it
equals `down`, `up`, `on`, `off` or `toggle`, or is composed entirely of
decimal digits (the empty modifier counts as all digits). -/
def GetSendKey (szLine : List Char) : Nat × List Char :=
  let r := GetSendKeyGo szLine ⟨0, 0, 1, [], []⟩
  let good : Bool :=
    r.special = "down".toList ∨ r.special = "up".toList ∨ r.special = "on".toList ∨
    r.special = "off".toList ∨ r.special = "toggle".toList ∨ r.nSpecNum = 1
  (if good then 0 else 1, r.key)

/-- The backward walk of `IsContinuationLine` (LexAhk.cxx lines 181–195):
scan right-to-left from `nePos`, skipping spaces; fuel bounds the loop. -/
def IsContinuationLineGo (doc : List Char) (styles : List AhkStyle) (nsPos : Nat) :
    Nat → Nat → Bool
  | 0, _ => false
  | fuel + 1, nePos =>
      if nsPos < nePos then
        if styleAt styles nsPos ≠ .COMMENT then
          let c := charAt doc nePos
          if ¬ isspacechar c then decide (c = '_')
          else IsContinuationLineGo doc styles nsPos fuel (nePos - 1)
        else IsContinuationLineGo doc styles nsPos fuel (nePos - 1)
      else false

/-- `IsContinuationLine` (LexAhk.cxx lines 176–197): whether the last
non-space character of `szLine` (outside comment styling, as tested at the
line start) is the continuation underscore. -/
def IsContinuationLine (szLine : Nat) (doc : List Char) (styles : List AhkStyle) : Bool :=
  let nsPos := lineStart doc szLine
  let nePos := lineStart doc (szLine + 1) - 2
  IsContinuationLineGo doc styles nsPos (nePos + 1) nePos

/-- Scanner state: the `StyleContext` state plus the scalar flags of
`ColouriseAhkDoc` (`si` quote kind, `ni` numeric kind, `ci` comment-block
one-shot, `ss` escape pending, `FullWord` accumulator) and the styles
flushed so far.  `tokenStart` is the start segment of the current run. -/
structure ScanSt where
  state : AhkStyle
  tokenStart : Nat
  si : Nat
  ni : Nat
  ci : Nat
  ss : Nat
  fullWord : List Char
  styles : List AhkStyle
  deriving DecidableEq, Repr

/-- `ColourTo (pos-1)`: close the current run at `pos`, styling
`[tokenStart, pos)` with the current state. -/
def flushTo (st : ScanSt) (pos : Nat) : ScanSt :=
  { st with styles := st.styles ++ List.replicate (pos - st.tokenStart) st.state,
            tokenStart := pos }

/-- `sc.SetState s` at offset `pos`. -/
def setState (st : ScanSt) (pos : Nat) (s : AhkStyle) : ScanSt :=
  { flushTo st pos with state := s }

/-- `sc.ChangeState s`: restyle the pending run without closing it. -/
def changeState (st : ScanSt) (s : AhkStyle) : ScanSt := { st with state := s }

/-- `sc.GetCurrentLowered`: the text of the current run `[tokenStart, i)`,
lower-cased, truncated to 99 characters. -/
def curWordAt (doc : List Char) (tokenStart i : Nat) : List Char :=
  (((doc.drop tokenStart).take (i - tokenStart)).take 99).map toLowerAscii

/-- The token-end classification of the `SCE_AHK_KEYWORD` case
(LexAhk.cxx lines 317–369): `none` when the token continues, otherwise
the `(ChangeState, SetState)` pair applied. -/
def keywordClassify (kw : AhkTables) (cw : List Char) (ch : Char) :
    Option (AhkStyle × AhkStyle) :=
  if ¬ (IsAWordChar ch ∨ (ch = '-' ∧ (cw = "#comments".toList ∨ cw = "#include".toList))) then
    if ¬ IsTypeCharacter ch then
      if inList kw.k1 cw then some (.KEYWORD, .DEFAULT)
      else if inList kw.k2 cw then some (.KEYWORD2, .DEFAULT)
      else if inList kw.k3 cw then some (.KEYWORD3, .DEFAULT)
      else if inList kw.k4 cw then some (.KEYWORD4, .DEFAULT)
      else if inList kw.k5 cw then some (.KEYWORD5, .DEFAULT)
      else if inList kw.k6 cw then some (.KEYWORD6, .KEYWORD6)
      else if inList kw.k7 cw ∧ ¬ IsAOperator ch then some (.KEYWORD7, .DEFAULT)
      else if inList kw.k8 cw then some (.KEYWORD8, .DEFAULT)
      else if cw = ['_'] then some (.OPERATOR, .DEFAULT)
      else if ¬ IsAWordChar ch then some (.DEFAULT, .DEFAULT)
      else none
    else none
  else none

/-- The end-of-span classification of the last word
(LexAhk.cxx lines 607–646): `/*` becomes a comment block, then tables
1, 2, 3, 5, 6, 7 (the last only at a line end), 8 are consulted in order,
and `DEFAULT` is the fallback.  Table 4 is never consulted here. -/
def finalKeywordClassify (kw : AhkTables) (fw : List Char) (ale : Bool) : AhkStyle :=
  if fw = "/*".toList then .COMMENTBLOCK
  else if inList kw.k1 fw then .KEYWORD
  else if inList kw.k2 fw then .KEYWORD2
  else if inList kw.k3 fw then .KEYWORD3
  else if inList kw.k5 fw then .KEYWORD5
  else if inList kw.k6 fw then .KEYWORD6
  else if inList kw.k7 fw ∧ ale then .KEYWORD7
  else if inList kw.k8 fw then .KEYWORD8
  else .DEFAULT

/-- The new-token dispatch from the `DEFAULT` state
(LexAhk.cxx lines 572–601), including the trailing `ss = 0` reset. -/
def dispatchDefault (doc : List Char) (pos : Nat) (chPrev ch chNext : Char)
    (st : ScanSt) : ScanSt :=
  let r :=
    if ch = ';' then setState st pos .COMMENT
    else if ch = '/' ∧ chNext = '*' then setState st pos .COMMENTBLOCK
    else if ch = chDQuote then { setState st pos .STRING with si := 0 }
    else if ch = chSQuote then { setState st pos .STRING with si := 1 }
    else if ch = chLBrace ∨ ch = chRBrace ∨ ch = '(' ∨ ch = ')' ∨ ch = '[' ∨ ch = ']' then
      setState st pos .FOLD
    else if ch = '#' then setState st pos .KEYWORD
    else if ch = '$' then setState st pos .VARIABLE
    else if ch = '.' ∧ ¬ IsADigit chNext then setState st pos .OPERATOR
    else if ch = '@' then setState st pos .KEYWORD
    else if IsADigit ch ∨ (ch = '.' ∧ IsADigit chPrev) then
      { setState st pos .NUMBER with ni := 0 }
    else if IsAWordStart ch then setState st pos .KEYWORD
    else if IsAOperator ch then setState st pos .OPERATOR
    else if ch = ':' ∧ chNext = '=' then setState st pos .ASSIGNMENT
    else if atLineEndAt doc pos then setState st pos .DEFAULT
    else st
  { r with ss := 0 }

/-- One iteration of the scanner loop at offset `i` (LexAhk.cxx lines
261–602): the `FullWord` update, the dispatch on the current state, and
the new-token detection when the state is `DEFAULT` afterwards.  Returns
the new state and the next offset (`i + 2` after the `ForwardSetState`
that closes a string). -/
def scanStep (kw : AhkTables) (doc : List Char) (startP i : Nat) (st0 : ScanSt) :
    ScanSt × Nat :=
  let ch := charAt doc i
  let chPrev := if i = startP then chNul else charAt doc (i - 1)
  let chNext := charAt doc (i + 1)
  let cw := curWordAt doc st0.tokenStart i
  let fw1 := if IsAWordChar ch ∨ ch = chRBrace then
               (if cw.length < 99 then cw ++ [toLowerAscii ch] else cw)
             else st0.fullWord
  let st1 := { st0 with fullWord := fw1 }
  let sw : ScanSt × Bool :=
    match st1.state with
    | .COMMENTBLOCK =>
        if st1.ci = 1 then ({ setState st1 i .DEFAULT with ci := 0 }, false)
        else if ch = '/' ∧ chPrev = '*' then ({ st1 with ci := 1 }, false)
        else (st1, false)
    | .COMMENT =>
        if atLineEndAt doc i then (setState st1 i .DEFAULT, false) else (st1, false)
    | .OPERATOR =>
        if chPrev = '.' ∧ IsAWordChar ch then (setState st1 i .COMOBJ, false)
        else (setState st1 i .DEFAULT, false)
    | .KEYWORD6 =>
        let a := if ch = ';' then setState st1 i .COMMENT else st1
        let b := if atLineEndAt doc i then setState a i .DEFAULT else a
        (b, false)
    | .KEYWORD =>
        let a := match keywordClassify kw cw ch with
                 | some p => setState (changeState st1 p.1) i p.2
                 | none => st1
        let b := if atLineEndAt doc i then setState a i .DEFAULT else a
        (b, false)
    | .NUMBER =>
        if cw = ['0'] ∧ (ch = 'x' ∨ ch = 'X') ∧ st1.ni = 0 then
          ({ st1 with ni := 2 }, false)
        else if IsADigit chPrev ∧ (ch = 'e' ∨ ch = 'E') ∧ st1.ni ≤ 1 then
          ({ st1 with ni := 3 }, false)
        else if st1.ni = 2 ∧ (ch = 'a' ∨ ch = 'b' ∨ ch = 'c' ∨ ch = 'd' ∨ ch = 'e' ∨
                 ch = 'f' ∨ ch = 'A' ∨ ch = 'B' ∨ ch = 'C' ∨ ch = 'D' ∨ ch = 'E' ∨
                 ch = 'F') then
          (st1, false)
        else if ch = '.' then
          ({ st1 with ni := if st1.ni = 0 then 1 else 9 }, false)
        else if ¬ IsADigit ch then
          (setState (if st1.ni = 9 then changeState st1 .DEFAULT else st1) i .DEFAULT, false)
        else (st1, false)
    | .VARIABLE =>
        if ch = '.' ∧ ¬ IsADigit chNext then (setState st1 i .OPERATOR, false)
        else if ¬ IsAWordChar ch then (setState st1 i .DEFAULT, false)
        else (st1, false)
    | .COMOBJ =>
        if ¬ IsAWordChar ch then
          (if inList kw.k1 cw then setState (changeState st1 .KEYWORD) i .DEFAULT
           else setState st1 i .DEFAULT, false)
        else (st1, false)
    | .STRING =>
        let a := if st1.ss = 1 then
                   { setState (changeState st1 .ASSIGNMENT) i .STRING with ss := 0 }
                 else st1
        if (a.si = 0 ∧ ch = chDQuote) ∨ (a.si = 1 ∧ ch = chSQuote) then
          ({ a with styles := a.styles ++ List.replicate (i + 1 - a.tokenStart) a.state,
                    tokenStart := i + 1, state := .DEFAULT }, true)
        else
          (if ch = chBacktick then { setState a i .ASSIGNMENT with ss := 1 } else a, false)
    | .ASSIGNMENT =>
        if chPrev = ':' ∧ ch = '=' then (setState st1 i .ASSIGNMENT, false)
        else if st1.ss = 1 then (setState st1 i .STRING, false)
        else (setState st1 i .DEFAULT, false)
    | .FOLD => (setState st1 i .DEFAULT, false)
    | _ => (st1, false)
  let st2 := sw.1
  if sw.2 then
    (dispatchDefault doc (i + 1) (charAt doc i) (charAt doc (i + 1)) (charAt doc (i + 2)) st2,
     i + 2)
  else if st2.state = .DEFAULT then
    (dispatchDefault doc i chPrev ch chNext st2, i + 1)
  else (st2, i + 1)

/-- The scanner loop `for (; sc.More(); sc.Forward())`, fuelled (each step
advances the offset by at least one). -/
def scanGo (kw : AhkTables) (doc : List Char) (startP endPos : Nat) :
    Nat → Nat → ScanSt → ScanSt
  | 0, _, st => st
  | fuel + 1, i, st =>
      if i < endPos then
        let r := scanStep kw doc startP i st
        scanGo kw doc startP endPos fuel r.2 r.1
      else st

/-- The post-loop classification (LexAhk.cxx lines 604–682): the last-word
fix-up for `SCE_AHK_KEYWORD`, and the dead send-key fix-up for
`SCE_AHK_KEYWORD4`. -/
def finalizeScan (kw : AhkTables) (doc : List Char) (startP endPos : Nat)
    (st : ScanSt) : ScanSt :=
  if st.state = .KEYWORD then
    let x := finalKeywordClassify kw st.fullWord (atLineEndAt doc endPos)
    setState (changeState st x) endPos x
  else if st.state = .KEYWORD4 then
    let ch := charAt doc endPos
    let chPrev := if endPos = startP then chNul else charAt doc (endPos - 1)
    if chPrev = chRBrace ∧ ch ≠ chRBrace then
      let r := GetSendKey st.fullWord
      let ns : AhkStyle :=
        if r.1 = 1 then .STRING
        else if r.2.length = 3 then .KEYWORD4
        else if inList kw.k4 r.2 then .KEYWORD4
        else .STRING
      setState (changeState st ns) endPos .STRING
    else st
  else st

/-- The backward restart walk of `ColouriseAhkDoc` (LexAhk.cxx lines
218–224): while the line counter is positive and the recorded style *at
offset `lineCurrent`* (the line number used as a position) is not
`DEFAULT`, step to the previous line, moving the start position to its
line start and resetting the initial style.  Returns the final
`(startPos, initStyle)`. -/
def restartWalk (doc : List Char) (styles : List AhkStyle) :
    Nat → Nat → AhkStyle → Nat × AhkStyle
  | 0, startPos, initStyle => (startPos, initStyle)
  | lc + 1, startPos, initStyle =>
      if styleAt styles (lc + 1) ≠ .DEFAULT then
        restartWalk doc styles lc (lineStart doc lc) .DEFAULT
      else (startPos, initStyle)

/-- The backward walk of the quote-kind re-derivation (LexAhk.cxx lines
245–248): step back while the recorded style one position earlier is
`STRING`; returns the offset of the opening quote. -/
def deriveSiGo (doc : List Char) (styles : List AhkStyle) : Nat → Nat
  | 0 => 0
  | pos + 1 => if styleAt styles pos = .STRING then deriveSiGo doc styles pos else pos + 1

/-- `ColouriseAhkDoc` (LexAhk.cxx lines 201–685) over an abstract document:
the restart prologue (backward walk, length extension and clamp, quote-kind
re-derivation from the recorded styles), the scanner loop, the post-loop
last-word classification and the final `ColourTo`.  Returns the resolved
start offset and the styles written over the processed span. -/
def ColouriseAhkDoc (kw : AhkTables) (doc : List Char) (recorded : List AhkStyle)
    (startPos0 len0 : Nat) (initStyle0 : AhkStyle) : Nat × List AhkStyle :=
  let lc := getLine doc startPos0
  let walked := if initStyle0 ≠ .DEFAULT then restartWalk doc recorded lc startPos0 initStyle0
                else (startPos0, initStyle0)
  let startPos := walked.1
  let initStyle := walked.2
  let len1 := len0 + startPos0 - startPos
  let len := if doc.length < len1 then doc.length else len1
  let si0 := if initStyle = .STRING then
               (if charAt doc (deriveSiGo doc recorded startPos) = chDQuote then 0 else 1)
             else 0
  let endPos := startPos + len
  let st0 : ScanSt := ⟨initStyle, startPos, si0, 0, 0, 0, [], []⟩
  let stL := scanGo kw doc startPos endPos (len + 1) startPos st0
  let stF := finalizeScan kw doc startPos endPos stL
  (startPos, (flushTo stF endPos).styles)

/-- A full rescan: `ColouriseAhkDoc` over the whole document from offset 0
with a `DEFAULT` initial style. -/
def fullScanStyles (kw : AhkTables) (doc : List Char) : List AhkStyle :=
  (ColouriseAhkDoc kw doc [] 0 doc.length .DEFAULT).2

/-- `styler.LevelAt`: recorded fold level of a line (`SC_FOLDLEVELBASE`
when none is recorded). -/
def levelAt (levels : List Int) (line : Nat) : Int := levels.getD line 1024

/-- State threaded through the `FoldAhkDoc` loop. -/
structure FoldSt where
  currentLine : Nat
  levelPrev : Int
  levelCurrent : Int
  chPrev : Char
  levels : List Int
  deriving DecidableEq, Repr

/-- One iteration of the `FoldAhkDoc` loop at offset `i`
(LexAhk.cxx lines 716–744): bracket and comment-block deltas, and the
line-boundary write of the level with the header flag. -/
def foldStep (doc : List Char) (styles : List AhkStyle) (endPos i : Nat)
    (f : FoldSt) : FoldSt :=
  let ch := charAt doc i
  let style := styleAt styles i
  let lc1 := if style = .FOLD then
               (if ch = chLBrace ∨ ch = '(' ∨ ch = '[' then f.levelCurrent + 1
                else f.levelCurrent)
             else f.levelCurrent
  let lc2 := if style = .FOLD then
               (if ch = chRBrace ∨ ch = ')' ∨ ch = ']' then lc1 - 1 else lc1)
             else lc1
  let lc3 := if style = .COMMENTBLOCK then
               (if ch = '*' ∧ f.chPrev = '/' then lc2 + 1 else lc2)
             else lc2
  let lc4 := if style = .COMMENTBLOCK then
               (if ch = '/' ∧ f.chPrev = '*' then lc3 - 1 else lc3)
             else lc3
  if ch = '\n' ∨ i = endPos - 1 then
    let lev := if f.levelPrev < lc4 then Int.lor f.levelPrev 8192 else f.levelPrev
    let newLevels := if lev ≠ levelAt f.levels f.currentLine then
                       f.levels.set f.currentLine lev
                     else f.levels
    { currentLine := f.currentLine + 1, levelPrev := lc4, levelCurrent := lc4,
      chPrev := ch, levels := newLevels }
  else
    { f with levelCurrent := lc4, chPrev := ch }

/-- `FoldAhkDoc` (LexAhk.cxx lines 709–745): single pass over the offsets
`[startPos, startPos + len)` of the styled range, seeding the running level
from the masked recorded level of the first line, and writing each line's
level (with the `SC_FOLDLEVELHEADERFLAG` bit 0x2000 when the line raised
the level) when it differs from the recorded one. -/
def FoldAhkDoc (doc : List Char) (styles : List AhkStyle) (startPos len : Nat)
    (levels0 : List Int) : List Int :=
  let endPos := startPos + len
  let line0 := getLine doc startPos
  let lp := Int.land (levelAt levels0 line0) 4095
  ((List.range' startPos len).foldl (fun f i => foldStep doc styles endPos i f)
    ⟨line0, lp, lp, chNul, levels0⟩).levels

/-- All eight keyword tables empty. -/
def kwEmpty : AhkTables := ⟨[], [], [], [], [], [], [], []⟩

/-- Tables holding only the send-key name `\x7benter\x7d` in table 4. -/
def kwEnter : AhkTables := ⟨[], [], [], ["\x7benter\x7d".toList], [], [], [], []⟩

/-- Tables holding only the word `zz` in table 4. -/
def kwZZ4 : AhkTables := ⟨[], [], [], ["zz".toList], [], [], [], []⟩

/-- Tables holding only the word `zz` in table 1. -/
def kwZZ1 : AhkTables := ⟨["zz".toList], [], [], [], [], [], [], []⟩

/-- Tables holding only the underscore word in table 7. -/
def kwU7 : AhkTables := ⟨[], [], [], [], [], [], ["_".toList], []⟩

/-- A five-line document whose last two lines close a block comment opened
on line 1: `abc:=d`, `/*`, `x`, `y`, `*/`. -/
def docBug : List Char := "abc:=d\n/*\nx\ny\n*/\n".toList

/-- The styles a full rescan of `docBug` records. -/
def stylesBug : List AhkStyle :=
  [.DEFAULT, .DEFAULT, .DEFAULT, .ASSIGNMENT, .ASSIGNMENT, .DEFAULT, .DEFAULT,
   .COMMENTBLOCK, .COMMENTBLOCK, .COMMENTBLOCK, .COMMENTBLOCK, .COMMENTBLOCK,
   .COMMENTBLOCK, .COMMENTBLOCK, .COMMENTBLOCK, .COMMENTBLOCK, .DEFAULT]

/-- A document whose first line ends with the continuation underscore:
`a _` then `b`. -/
def docCont : List Char := "a _\nb\n".toList

/-- The styles a full rescan of `docCont` records. -/
def stylesCont : List AhkStyle :=
  [.DEFAULT, .DEFAULT, .OPERATOR, .DEFAULT, .DEFAULT, .DEFAULT]

/-- The balanced-bracket fold example `a() \x7b / b() / \x7d`. -/
def docFold : List Char := "a() \x7b\n  b()\x0a\x7d\n".toList

/-- The styles a full rescan of `docFold` records. -/
def stylesFold : List AhkStyle :=
  [.DEFAULT, .FOLD, .FOLD, .DEFAULT, .FOLD, .DEFAULT, .DEFAULT, .DEFAULT,
   .DEFAULT, .FOLD, .FOLD, .DEFAULT, .FOLD, .DEFAULT]

/-- A double-quoted string containing the bracketed key name `Enter`. -/
def docEnter : List Char := "\x22\x7bEnter\x7d\x22".toList

/-- A double-quoted string containing `Enter` with the invalid modifier
`xyz`. -/
def docEnterXyz : List Char := "\x22\x7bEnter xyz\x7d\x22".toList

/-- A scanner state in the middle of a double-quoted string token that
started at offset 0, with no escape pending. -/
def stStr : ScanSt := ⟨.STRING, 0, 0, 0, 0, 0, [], []⟩

/-- A scanner state in the middle of a single-quoted string token that
started at offset 0, with no escape pending. -/
def stStr1 : ScanSt := ⟨.STRING, 0, 1, 0, 0, 0, [], []⟩

/-- A scanner state in the middle of a number token that started at offset
0 and has already seen one decimal point. -/
def stNum : ScanSt := ⟨.NUMBER, 0, 0, 1, 0, 0, [], []⟩

/-- A scanner state in the `DEFAULT` state at offset 0 with stale flag
values left over from earlier tokens. -/
def stDef : ScanSt := ⟨.DEFAULT, 0, 1, 9, 0, 1, "old".toList, []⟩

/-- A two-character document: a single quote then a double quote. -/
def docQQ : List Char := "\x27\x22".toList

/-- A one-character document holding a single decimal point. -/
def docDot : List Char := ".".toList

/-- A three-character document `5"7`. -/
def docDigQ : List Char := "5\x227".toList

/-- C1: incremental re-lexing is NOT equivalent to a full rescan.  On
`docBug`, whose recorded styles `stylesBug` are exactly what a full rescan
produces, a re-lex requested at offset 14 (inside the closing line of the
block comment, recorded style BlockComment) is resolved by the restart
prologue to offset 10 with a `DEFAULT` initial state — because the
backward walk reads the style at the *offset* equal to the line number —
and the scan over the chosen region then styles offsets 10–15 as
Default/Operator where the full rescan records BlockComment. -/
theorem C1_incremental_rescan_diverges :
    fullScanStyles kwEmpty docBug = stylesBug ∧
    ColouriseAhkDoc kwEmpty docBug stylesBug 14 3 .COMMENTBLOCK =
      (10, [.DEFAULT, .DEFAULT, .DEFAULT, .DEFAULT, .OPERATOR, .OPERATOR, .DEFAULT]) ∧
    (stylesBug.drop 10 ≠
      [.DEFAULT, .DEFAULT, .DEFAULT, .DEFAULT, .OPERATOR, .OPERATOR, .DEFAULT]) := by
  refine ⟨by decide, by decide, by decide⟩

/-- C2: the restart walk does not stop at the beginning of the first
Default-styled *line*.  On `docBug` with recorded styles `stylesBug`, a
restart requested at offset 14 (line 4, recorded style BlockComment) should
per the claim walk back over the non-Default lines 3, 2 and 1 (all styled
BlockComment) and stop at line 0, the first Default-styled line, i.e. at
offset 0.  The code instead stops at offset 10, the start of line 2 — a
line styled BlockComment — because the loop reads
`styleAt stylesBug lineCurrent`, the style at the *offset* equal to the
line number, and offset 2 happens to hold Default styling. -/
theorem C2_restart_walk_reads_positions :
    fullScanStyles kwEmpty docBug = stylesBug ∧
    restartWalk docBug stylesBug 4 14 .COMMENTBLOCK = (10, .DEFAULT) ∧
    styleAt stylesBug 14 ≠ .DEFAULT ∧
    lineStart docBug 2 = 10 ∧ styleAt stylesBug 10 ≠ .DEFAULT ∧
    styleAt stylesBug 12 ≠ .DEFAULT ∧ styleAt stylesBug 7 ≠ .DEFAULT ∧
    styleAt stylesBug 0 = .DEFAULT ∧ lineStart docBug 0 = 0 ∧
    styleAt stylesBug 2 = .DEFAULT := by
  refine ⟨by decide, by decide, by decide, by decide, by decide, by decide, by decide,
    by decide, by decide, by decide⟩

/-- C3: no continuation-line adjustment is performed.  On `docCont`, line 0
ends with the continuation underscore (`IsContinuationLine` itself reports
`true`, but it is never called by the scanner), yet a restart requested at
offset 4 — the beginning of line 1, recorded style Default — is left at
offset 4 rather than being moved to the beginning of line 0. -/
theorem C3_no_continuation_restart :
    fullScanStyles kwEmpty docCont = stylesCont ∧
    IsContinuationLine 0 docCont stylesCont = true ∧
    ColouriseAhkDoc kwEmpty docCont stylesCont 4 2 .DEFAULT =
      (4, [.DEFAULT, .DEFAULT]) ∧
    lineStart docCont 1 = 4 := by
  refine ⟨by decide, by decide, by decide, by decide⟩

/-- C4 counterexample: with the key name in table 4, the bracketed span
`\x7bEnter\x7d` inside a double-quoted string is NOT tagged with the
keyword-category-4 style — every character of the string, brackets
included, keeps plain String styling, because the in-string transition
into the send-key state is commented out in the scanner. -/
theorem C4_enter_not_tagged :
    fullScanStyles kwEnter docEnter = List.replicate 9 .STRING ∧
    (AhkStyle.STRING ≠ AhkStyle.KEYWORD4) := by
  refine ⟨by decide, by decide⟩

/-- C4 amended: `GetSendKey` does validate bracketed key text as the claim
describes — no modifier, a `down`/`up`/`on`/`off`/`toggle` modifier or an
all-digits repeat count are accepted (flag 0) and `xyz` is rejected
(flag 1) — but the scanner never invokes it from inside a String token, so
both `\x7bEnter\x7d` and `\x7bEnter xyz\x7d` keep plain String styling. -/
theorem C4_sendkey_validation_disconnected :
    (GetSendKey "\x7benter\x7d".toList).1 = 0 ∧
    (GetSendKey "\x7benter xyz\x7d".toList).1 = 1 ∧
    (GetSendKey "\x7bup 5\x7d".toList).1 = 0 ∧
    (GetSendKey "\x7ba down\x7d".toList).1 = 0 ∧
    fullScanStyles kwEnter docEnter = List.replicate 9 .STRING ∧
    fullScanStyles kwEnter docEnterXyz = List.replicate 13 .STRING := by
  refine ⟨by decide, by decide, by decide, by decide, by decide, by decide⟩

/-- C5 counterexample: end-of-span classification is NOT the mid-span
classification run once more.  With `zz` only in table 4, the word
terminated mid-span (document `zz` followed by a space) is tagged
keyword-category 4, but the same word left unterminated at the end of the
span (document exactly `zz`) is retagged Default — table 4 is skipped by
the end-of-span classifier. -/
theorem C5_finalization_skips_table4 :
    fullScanStyles kwZZ4 "zz ".toList = [.KEYWORD4, .KEYWORD4, .DEFAULT] ∧
    fullScanStyles kwZZ4 "zz".toList = [.DEFAULT, .DEFAULT] ∧
    (AhkStyle.KEYWORD4 ≠ AhkStyle.DEFAULT) := by
  refine ⟨by decide, by decide, by decide⟩

/-- C8 counterexample: for the balanced-bracket document `docFold` (styled
by a full rescan) folded from base level 1024, line 1 stores 1024 with the
header bit 0x2000 set (9216) and line 2 stores 1025, as the claim says —
but line 3 stores 1025 = L + 1, the running level before its own closing
bracket was applied, not L = 1024. -/
theorem C8_closing_line_level :
    fullScanStyles kwEmpty docFold = stylesFold ∧
    FoldAhkDoc docFold stylesFold 0 14 [1024, 0, 0] = [9216, 1025, 1025] ∧
    ((1025 : Int) ≠ 1024) := by
  refine ⟨by decide, by decide, by decide⟩

/-- C9 counterexample: the `FullWord` accumulator is not reset when the
state returns to Default, and its value leaks across tokens.  With `zz` in
table 1, the document `zz #` ends while a keyword token consisting only of
`#` is open; the end-of-span classifier consults the stale accumulated
word `zz` and tags the `#` with the keyword style, whereas the document
`#` alone leaves the same token Default. -/
theorem C9_fullword_leaks :
    fullScanStyles kwZZ1 "zz #".toList =
      [.KEYWORD, .KEYWORD, .DEFAULT, .KEYWORD] ∧
    fullScanStyles kwZZ1 "#".toList = [.DEFAULT] ∧
    (AhkStyle.KEYWORD ≠ AhkStyle.DEFAULT) := by
  refine ⟨by decide, by decide, by decide⟩

/-- C10 counterexample: with the single underscore present in table 7 and
an operator terminator, the fall-through does not end at Default — the
underscore rule retags the word Operator.  Scanning `_+` yields Operator
styling on the word, and `keywordClassify` maps it to
`(OPERATOR, DEFAULT)`, not `(DEFAULT, DEFAULT)` as the claim requires. -/
theorem C10_underscore_exception :
    fullScanStyles kwU7 "_+".toList = [.OPERATOR, .OPERATOR] ∧
    keywordClassify kwU7 "_".toList '+' = some (.OPERATOR, .DEFAULT) ∧
    (some (AhkStyle.OPERATOR, AhkStyle.DEFAULT) ≠
      some (AhkStyle.DEFAULT, AhkStyle.DEFAULT)) := by
  refine ⟨by decide, by decide, by decide⟩

/-- Closing a run at its own start position changes only the state. -/
theorem setState_self (st : ScanSt) (pos : Nat) (s : AhkStyle)
    (h : st.tokenStart = pos) : setState st pos s = { st with state := s } := by
  simp [setState, flushTo, h]

/-- The default-state dispatch flushes nothing when the current run starts
at the dispatch position. -/
theorem dispatchDefault_styles (doc : List Char) (pos : Nat) (cp c cn : Char)
    (st : ScanSt) (h : st.tokenStart = pos) :
    (dispatchDefault doc pos cp c cn st).styles = st.styles := by
  have e : ∀ s, setState st pos s = { st with state := s } :=
    fun s => setState_self st pos s h
  simp only [dispatchDefault, e]
  simp only [apply_ite ScanSt.styles]
  simp

/-- The default-state dispatch keeps the run start at the dispatch position
when it already is there. -/
theorem dispatchDefault_tokenStart (doc : List Char) (pos : Nat) (cp c cn : Char)
    (st : ScanSt) (h : st.tokenStart = pos) :
    (dispatchDefault doc pos cp c cn st).tokenStart = pos := by
  have e : ∀ s, setState st pos s = { st with state := s } :=
    fun s => setState_self st pos s h
  simp only [dispatchDefault, e]
  simp only [apply_ite ScanSt.tokenStart]
  simp [h]

/-- A decimal digit differs from every character that is not a decimal
digit. -/
theorem ne_of_digit {c x : Char} (h : IsADigit c = true) (hx : IsADigit x = false) :
    ¬(c = x) := by
  intro e
  rw [e] at h
  rw [h] at hx
  simp at hx

/-- An operator character is neither a word character nor the type
character. -/
theorem IsAOperator_not_word {ch : Char} (h : IsAOperator ch = true) :
    IsAWordChar ch = false ∧ IsTypeCharacter ch = false := by
  simp only [IsAOperator] at h
  split_ifs at h with h1 h2 h3
  rcases h3 with e | e | e | e | e | e | e | e | e | e | e <;> subst e <;>
    exact ⟨by decide, by decide⟩

/-- C6: a String token is closed only by its own quote character.  For a
double-quoted token (`si = 0`, no escape pending) an internal single quote
leaves the state, the styles and the position progression of the scanner
step unchanged, while the matching double quote ends the token *after*
consuming the quote: the whole run up to and including the quote is styled
String and the next run starts at the following offset.  Symmetrically for
a single-quoted token (`si = 1`).  In particular the whole input
`"it's"` is styled String. -/
theorem C6_quote_matching :
    (∀ (kw : AhkTables) (doc : List Char) (startP i : Nat) (st : ScanSt),
      st.state = .STRING → st.ss = 0 → st.si = 0 → charAt doc i = chSQuote →
      (scanStep kw doc startP i st).1.state = .STRING ∧
      (scanStep kw doc startP i st).1.styles = st.styles ∧
      (scanStep kw doc startP i st).2 = i + 1) ∧
    (∀ (kw : AhkTables) (doc : List Char) (startP i : Nat) (st : ScanSt),
      st.state = .STRING → st.ss = 0 → st.si = 0 → charAt doc i = chDQuote →
      (scanStep kw doc startP i st).1.styles
        = st.styles ++ List.replicate (i + 1 - st.tokenStart) .STRING ∧
      (scanStep kw doc startP i st).1.tokenStart = i + 1 ∧
      (scanStep kw doc startP i st).2 = i + 2) ∧
    (∀ (kw : AhkTables) (doc : List Char) (startP i : Nat) (st : ScanSt),
      st.state = .STRING → st.ss = 0 → st.si = 1 → charAt doc i = chDQuote →
      (scanStep kw doc startP i st).1.state = .STRING ∧
      (scanStep kw doc startP i st).1.styles = st.styles ∧
      (scanStep kw doc startP i st).2 = i + 1) ∧
    (∀ (kw : AhkTables) (doc : List Char) (startP i : Nat) (st : ScanSt),
      st.state = .STRING → st.ss = 0 → st.si = 1 → charAt doc i = chSQuote →
      (scanStep kw doc startP i st).1.styles
        = st.styles ++ List.replicate (i + 1 - st.tokenStart) .STRING ∧
      (scanStep kw doc startP i st).1.tokenStart = i + 1 ∧
      (scanStep kw doc startP i st).2 = i + 2) ∧
    fullScanStyles kwEmpty "\x22it\x27s\x22".toList = List.replicate 6 .STRING := by
  refine ⟨?_, ?_, ?_, ?_, by decide⟩
  · intro kw doc startP i st hstate hss hsi hch
    simp only [scanStep, hch]
    simp [hstate, hss, hsi, (by decide : IsAWordChar chSQuote = false),
      (by decide : ¬(chSQuote = chRBrace)), (by decide : ¬(chSQuote = chDQuote)),
      (by decide : ¬(chSQuote = chBacktick)),
      (by decide : ¬(AhkStyle.STRING = AhkStyle.DEFAULT))]
  · intro kw doc startP i st hstate hss hsi hch
    simp only [scanStep, hch]
    simp [hstate, hss, hsi, (by decide : IsAWordChar chDQuote = false),
      (by decide : ¬(chDQuote = chRBrace)), (by decide : ¬(chDQuote = chBacktick)),
      dispatchDefault_styles, dispatchDefault_tokenStart]
  · intro kw doc startP i st hstate hss hsi hch
    simp only [scanStep, hch]
    simp [hstate, hss, hsi, (by decide : IsAWordChar chDQuote = false),
      (by decide : ¬(chDQuote = chRBrace)), (by decide : ¬(chDQuote = chSQuote)),
      (by decide : ¬(chDQuote = chBacktick)),
      (by decide : ¬(AhkStyle.STRING = AhkStyle.DEFAULT))]
  · intro kw doc startP i st hstate hss hsi hch
    simp only [scanStep, hch]
    simp [hstate, hss, hsi, (by decide : IsAWordChar chSQuote = false),
      (by decide : ¬(chSQuote = chRBrace)), (by decide : ¬(chSQuote = chBacktick)),
      dispatchDefault_styles, dispatchDefault_tokenStart]

/-- C6 witness: the quote-matching step facts instantiated on the concrete
two-character document `docQQ` (a single quote then a double quote), in a
double-quoted and in a single-quoted string state. -/
theorem C6_quote_matching_witness :
    ((scanStep kwEmpty docQQ 0 0 stStr).1.state = .STRING ∧
     (scanStep kwEmpty docQQ 0 0 stStr).1.styles = stStr.styles ∧
     (scanStep kwEmpty docQQ 0 0 stStr).2 = 0 + 1) ∧
    ((scanStep kwEmpty docQQ 0 1 stStr).1.styles
       = stStr.styles ++ List.replicate (1 + 1 - stStr.tokenStart) .STRING ∧
     (scanStep kwEmpty docQQ 0 1 stStr).1.tokenStart = 1 + 1 ∧
     (scanStep kwEmpty docQQ 0 1 stStr).2 = 1 + 2) ∧
    ((scanStep kwEmpty docQQ 0 1 stStr1).1.state = .STRING ∧
     (scanStep kwEmpty docQQ 0 1 stStr1).1.styles = stStr1.styles ∧
     (scanStep kwEmpty docQQ 0 1 stStr1).2 = 1 + 1) ∧
    ((scanStep kwEmpty docQQ 0 0 stStr1).1.styles
       = stStr1.styles ++ List.replicate (0 + 1 - stStr1.tokenStart) .STRING ∧
     (scanStep kwEmpty docQQ 0 0 stStr1).1.tokenStart = 0 + 1 ∧
     (scanStep kwEmpty docQQ 0 0 stStr1).2 = 0 + 2) :=
  ⟨C6_quote_matching.1 kwEmpty docQQ 0 0 stStr rfl rfl rfl (by decide),
   C6_quote_matching.2.1 kwEmpty docQQ 0 1 stStr rfl rfl rfl (by decide),
   C6_quote_matching.2.2.1 kwEmpty docQQ 0 1 stStr1 rfl rfl rfl (by decide),
   C6_quote_matching.2.2.2.1 kwEmpty docQQ 0 0 stStr1 rfl rfl rfl (by decide)⟩

/-- C7: in a Number token a decimal point is accepted exactly once — a `.`
sets the numeric kind to 1 when it is 0 and to the invalid marker 9
otherwise, without ending the token or flushing styles — and the
invalidated token degrades to Default once a non-digit arrives: `1.2 `
keeps Number styling on `1.2`, while `1.2.3 ` retags the whole token
Default, the scanner terminating normally on both. -/
theorem C7_second_dot_invalidates :
    (∀ (kw : AhkTables) (doc : List Char) (startP i : Nat) (st : ScanSt),
      st.state = .NUMBER → charAt doc i = '.' →
      (scanStep kw doc startP i st).1.ni = (if st.ni = 0 then 1 else 9) ∧
      (scanStep kw doc startP i st).1.state = .NUMBER ∧
      (scanStep kw doc startP i st).1.styles = st.styles ∧
      (scanStep kw doc startP i st).2 = i + 1) ∧
    fullScanStyles kwEmpty "1.2 ".toList = [.NUMBER, .NUMBER, .NUMBER, .DEFAULT] ∧
    fullScanStyles kwEmpty "1.2.3 ".toList = List.replicate 6 .DEFAULT := by
  refine ⟨?_, by decide, by decide⟩
  intro kw doc startP i st hstate hch
  simp only [scanStep, hch]
  simp [hstate, (by decide : IsAWordChar '.' = false), (by decide : ¬('.' = chRBrace))]

/-- C7 witness: the decimal-point step fact instantiated on the document
`.` in a number state that has already seen one decimal point. -/
theorem C7_second_dot_invalidates_witness :
    (scanStep kwEmpty docDot 0 0 stNum).1.ni = (if stNum.ni = 0 then 1 else 9) ∧
    (scanStep kwEmpty docDot 0 0 stNum).1.state = .NUMBER ∧
    (scanStep kwEmpty docDot 0 0 stNum).1.styles = stNum.styles ∧
    (scanStep kwEmpty docDot 0 0 stNum).2 = 0 + 1 :=
  C7_second_dot_invalidates.1 kwEmpty docDot 0 0 stNum rfl (by decide)

/-- C5 amended: the end-of-span classification maps the word `/*` to
BlockComment and otherwise consults tables 1, 2, 3, 5, 6, 7 (the last only
at a line end) and 8 in order, falling back to Default — it never
consults table 4, so a word held only in table 4 finalises to Default,
whereas the mid-span classifier maps the same word to the
keyword-category-4 pair. -/
theorem C5_end_of_span_order :
    (∀ (kw : AhkTables) (w : List Char) (ale : Bool),
      inList kw.k1 w = false → inList kw.k2 w = false → inList kw.k3 w = false →
      inList kw.k5 w = false → inList kw.k6 w = false → inList kw.k7 w = false →
      inList kw.k8 w = false → w ≠ "/*".toList →
      finalKeywordClassify kw w ale = .DEFAULT) ∧
    (∀ (kw : AhkTables) (w : List Char) (ch : Char),
      inList kw.k1 w = false → inList kw.k2 w = false → inList kw.k3 w = false →
      inList kw.k4 w = true → IsAWordChar ch = false → IsTypeCharacter ch = false →
      ch ≠ '-' → keywordClassify kw w ch = some (.KEYWORD4, .DEFAULT)) ∧
    (∀ (kw : AhkTables) (ale : Bool),
      finalKeywordClassify kw "/*".toList ale = .COMMENTBLOCK) := by
  refine ⟨?_, ?_, ?_⟩
  · intro kw w ale h1 h2 h3 h5 h6 h7 h8 hw
    have hw' : ¬ w = ['/', '*'] := by simpa using hw
    simp [finalKeywordClassify, h1, h2, h3, h5, h6, h7, h8, hw']
  · intro kw w ch h1 h2 h3 h4 hwc htc hd
    simp [keywordClassify, h1, h2, h3, h4, hwc, htc, hd]
  · intro kw ale
    simp [finalKeywordClassify]

/-- C5 witness: the end-of-span and mid-span classifications instantiated
on the word `zz`, held only in table 4: Default at end of span,
keyword-category 4 mid-span. -/
theorem C5_end_of_span_order_witness :
    finalKeywordClassify kwZZ4 "zz".toList true = .DEFAULT ∧
    keywordClassify kwZZ4 "zz".toList ' ' = some (.KEYWORD4, .DEFAULT) :=
  ⟨C5_end_of_span_order.1 kwZZ4 "zz".toList true rfl rfl rfl rfl rfl rfl rfl
     (by decide),
   C5_end_of_span_order.2.1 kwZZ4 "zz".toList ' ' rfl rfl rfl (by decide)
     (by decide) (by decide) (by decide)⟩

/-- C9 amended: the flags are not reset on the return to Default itself;
instead, every character dispatched from the Default state clears the
escape flag `ss`, and the flags `si` and `ni` are (re)initialised at the
start of each new String and Number token, so stale values of those three
never leak.  The `FullWord` accumulator, however, is never reset: with
`zz` in table 1, the stale word from the first token of `zz #` makes the
end-of-span classifier tag the final `#` token with the keyword style. -/
theorem C9_flag_reset_behaviour :
    (∀ (kw : AhkTables) (doc : List Char) (startP i : Nat) (st : ScanSt),
      st.state = .DEFAULT → (scanStep kw doc startP i st).1.ss = 0) ∧
    (∀ (kw : AhkTables) (doc : List Char) (startP i : Nat) (st : ScanSt),
      st.state = .DEFAULT → charAt doc i = chDQuote →
      (scanStep kw doc startP i st).1.si = 0) ∧
    (∀ (kw : AhkTables) (doc : List Char) (startP i : Nat) (st : ScanSt),
      st.state = .DEFAULT → charAt doc i = chSQuote →
      (scanStep kw doc startP i st).1.si = 1) ∧
    (∀ (kw : AhkTables) (doc : List Char) (startP i : Nat) (st : ScanSt),
      st.state = .DEFAULT → IsADigit (charAt doc i) = true →
      (scanStep kw doc startP i st).1.ni = 0) ∧
    fullScanStyles kwZZ1 "zz #".toList = [.KEYWORD, .KEYWORD, .DEFAULT, .KEYWORD] := by
  refine ⟨?_, ?_, ?_, ?_, by decide⟩
  · intro kw doc startP i st hstate
    simp only [scanStep]
    simp [hstate, dispatchDefault]
  · intro kw doc startP i st hstate hch
    simp only [scanStep, hch]
    simp [hstate, (by decide : IsAWordChar chDQuote = false),
      (by decide : ¬(chDQuote = chRBrace)), (by decide : ¬(chDQuote = ';')),
      (by decide : ¬(chDQuote = '/')), setState, flushTo, dispatchDefault]
  · intro kw doc startP i st hstate hch
    simp only [scanStep, hch]
    simp [hstate, (by decide : IsAWordChar chSQuote = false),
      (by decide : ¬(chSQuote = chRBrace)), (by decide : ¬(chSQuote = ';')),
      (by decide : ¬(chSQuote = '/')), (by decide : ¬(chSQuote = chDQuote)),
      setState, flushTo, dispatchDefault]
  · intro kw doc startP i st hstate hch
    simp only [scanStep]
    simp [hstate, hch, setState, flushTo, dispatchDefault,
      ne_of_digit hch (by decide : IsADigit ';' = false),
      ne_of_digit hch (by decide : IsADigit '/' = false),
      ne_of_digit hch (by decide : IsADigit chDQuote = false),
      ne_of_digit hch (by decide : IsADigit chSQuote = false),
      ne_of_digit hch (by decide : IsADigit chLBrace = false),
      ne_of_digit hch (by decide : IsADigit chRBrace = false),
      ne_of_digit hch (by decide : IsADigit '(' = false),
      ne_of_digit hch (by decide : IsADigit ')' = false),
      ne_of_digit hch (by decide : IsADigit '[' = false),
      ne_of_digit hch (by decide : IsADigit ']' = false),
      ne_of_digit hch (by decide : IsADigit '#' = false),
      ne_of_digit hch (by decide : IsADigit '$' = false),
      ne_of_digit hch (by decide : IsADigit '.' = false),
      ne_of_digit hch (by decide : IsADigit '@' = false)]

/-- C9 witness: the dispatch reset facts instantiated on a Default state
carrying stale flag values (`si = 1`, `ni = 9`, `ss = 1`, a stale word):
a digit dispatch resets `ni`, a double quote sets `si := 0`, a single
quote sets `si := 1`, and `ss` is cleared. -/
theorem C9_flag_reset_behaviour_witness :
    (scanStep kwEmpty docDigQ 0 0 stDef).1.ss = 0 ∧
    (scanStep kwEmpty docDigQ 0 1 stDef).1.si = 0 ∧
    (scanStep kwEmpty docQQ 0 0 stDef).1.si = 1 ∧
    (scanStep kwEmpty docDigQ 0 0 stDef).1.ni = 0 :=
  ⟨C9_flag_reset_behaviour.1 kwEmpty docDigQ 0 0 stDef rfl,
   C9_flag_reset_behaviour.2.1 kwEmpty docDigQ 0 1 stDef rfl (by decide),
   C9_flag_reset_behaviour.2.2.1 kwEmpty docQQ 0 0 stDef rfl (by decide),
   C9_flag_reset_behaviour.2.2.2.1 kwEmpty docDigQ 0 0 stDef rfl (by decide)⟩

/-- C10 amended: a word held in table 7 (and none of tables 1–6, and not a
dash-directive prefix) whose token is terminated by an operator character
falls through to table 8; failing that it is retagged Default *unless* it
is the single underscore, which the continuation-marker rule retags
Operator.  With a non-operator terminator the word is tagged
keyword-category 7. -/
theorem C10_operator_terminator_fallthrough :
    (∀ (kw : AhkTables) (w : List Char) (ch : Char),
      inList kw.k1 w = false → inList kw.k2 w = false → inList kw.k3 w = false →
      inList kw.k4 w = false → inList kw.k5 w = false → inList kw.k6 w = false →
      inList kw.k7 w = true → IsAOperator ch = true →
      w ≠ "#comments".toList → w ≠ "#include".toList →
      keywordClassify kw w ch =
        some (if inList kw.k8 w = true then (.KEYWORD8, .DEFAULT)
              else if w = ['_'] then (.OPERATOR, .DEFAULT)
              else (.DEFAULT, .DEFAULT))) ∧
    (∀ (kw : AhkTables) (w : List Char) (ch : Char),
      inList kw.k1 w = false → inList kw.k2 w = false → inList kw.k3 w = false →
      inList kw.k4 w = false → inList kw.k5 w = false → inList kw.k6 w = false →
      inList kw.k7 w = true → IsAOperator ch = false → IsAWordChar ch = false →
      IsTypeCharacter ch = false → ch ≠ '-' →
      keywordClassify kw w ch = some (.KEYWORD7, .DEFAULT)) := by
  refine ⟨?_, ?_⟩
  · intro kw w ch h1 h2 h3 h4 h5 h6 h7 hop hc1 hc2
    obtain ⟨hwc, htc⟩ := IsAOperator_not_word hop
    have hc1' : ¬ w = ['#', 'c', 'o', 'm', 'm', 'e', 'n', 't', 's'] := by simpa using hc1
    have hc2' : ¬ w = ['#', 'i', 'n', 'c', 'l', 'u', 'd', 'e'] := by simpa using hc2
    simp only [keywordClassify, h1, h2, h3, h4, h5, h6, h7, hop, hwc, htc]
    simp [hc1', hc2']
    split_ifs <;> simp
  · intro kw w ch h1 h2 h3 h4 h5 h6 h7 hop hwc htc hd
    simp [keywordClassify, h1, h2, h3, h4, h5, h6, h7, hop, hwc, htc, hd]

/-- C10 witness: the fall-through facts instantiated on the underscore word
held only in table 7, with the operator terminator `+` and with the
non-operator terminator `;`. -/
theorem C10_operator_terminator_fallthrough_witness :
    keywordClassify kwU7 "_".toList '+' =
      some (if inList kwU7.k8 "_".toList = true then (.KEYWORD8, .DEFAULT)
            else if "_".toList = ['_'] then (.OPERATOR, .DEFAULT)
            else (.DEFAULT, .DEFAULT)) ∧
    keywordClassify kwU7 "_".toList ';' = some (.KEYWORD7, .DEFAULT) :=
  ⟨C10_operator_terminator_fallthrough.1 kwU7 "_".toList '+' rfl rfl rfl rfl rfl rfl
     (by decide) (by decide) (by decide) (by decide),
   C10_operator_terminator_fallthrough.2 kwU7 "_".toList ';' rfl rfl rfl rfl rfl rfl
     (by decide) (by decide) (by decide) (by decide) (by decide)⟩

/-- Masking with the 12-bit fold-level mask leaves a small value unchanged. -/
theorem nat_land_4095 {n : Nat} (h : n < 4096) : n &&& 4095 = n := by
  apply Nat.eq_of_testBit_eq
  intro j
  rw [Nat.testBit_land]
  by_cases hj : j < 12
  · have hb : Nat.testBit 4095 j = true := by interval_cases j <;> decide
    simp [hb]
  · have hpow : (4096 : Nat) ≤ 2 ^ j := by
      calc (4096 : Nat) = 2 ^ 12 := by norm_num
      _ ≤ 2 ^ j := Nat.pow_le_pow_right (by norm_num) (by omega)
    have h1 : Nat.testBit n j = false := Nat.testBit_eq_false_of_lt (by omega)
    have h2 : Nat.testBit 4095 j = false := Nat.testBit_eq_false_of_lt (by omega)
    simp [h1, h2]

/-- Setting the header bit 0x2000 changes any value below the bit. -/
theorem nat_lor_8192_ne {n : Nat} (h : n < 4096) : n ||| 8192 ≠ n := by
  intro e
  have h13 : Nat.testBit n 13 = false := by
    apply Nat.testBit_eq_false_of_lt
    have : (2 : Nat) ^ 13 = 8192 := by norm_num
    omega
  have h2 := congrArg (fun m => Nat.testBit m 13) e
  simp only [Nat.testBit_lor] at h2
  rw [h13, (by decide : Nat.testBit 8192 13 = true)] at h2
  simp at h2

/-- `nat_land_4095` lifted to the signed levels. -/
theorem int_land_4095 {L : Int} (h0 : 0 ≤ L) (h1 : L < 4096) :
    Int.land L 4095 = L := by
  obtain ⟨n, rfl⟩ := Int.eq_ofNat_of_zero_le h0
  have hn : n < 4096 := by exact_mod_cast h1
  rw [show Int.land ((n : Nat) : Int) (4095 : Int) = (((n &&& 4095 : Nat) : Nat) : Int)
    from rfl]
  rw [nat_land_4095 hn]

/-- `nat_lor_8192_ne` lifted to the signed levels. -/
theorem int_lor_8192_ne {L : Int} (h0 : 0 ≤ L) (h1 : L < 4096) :
    Int.lor L 8192 ≠ L := by
  obtain ⟨n, rfl⟩ := Int.eq_ofNat_of_zero_le h0
  have hn : n < 4096 := by exact_mod_cast h1
  rw [show Int.lor ((n : Nat) : Int) (8192 : Int) = (((n ||| 8192 : Nat) : Nat) : Int)
    from rfl]
  intro e
  exact nat_lor_8192_ne hn (by exact_mod_cast e)

set_option maxHeartbeats 1000000 in
/-- C8 amended: folding the balanced-bracket example `docFold` (with the
styles of a full rescan) from any base level `L` the 12-bit mask preserves
stores, line by line, the running level *before* the line's own deltas:
line 1 gets `L` with the header bit 0x2000 set (its net effect raised the
level), line 2 gets `L + 1` with the header bit clear, and line 3 — the
line holding only the closing bracket — gets `L + 1`, not `L`, with the
header bit clear. -/
theorem C8_fold_levels_before_deltas (L : Int) (h0 : 0 ≤ L) (h1 : L < 4096) :
    FoldAhkDoc docFold stylesFold 0 14 [L, 0, 0] = [Int.lor L 8192, L + 1, L + 1] := by
  have hmask : Int.land L 4095 = L := int_land_4095 h0 h1
  have hne : Int.lor L 8192 ≠ L := int_lor_8192_ne h0 h1
  have hne1 : (L + 1 : Int) ≠ 0 := by omega
  have hgt : L < L + 1 := by omega
  have hngt : ¬(L + 1 < L + 1) := by omega
  have hngt2 : ¬(L + 1 < L) := by omega
  have f1 : ¬('(' = chRBrace) := by decide
  have f2 : ¬(')' = chLBrace) := by decide
  have f3 : ¬(chLBrace = chRBrace) := by decide
  have f4 : ¬(chLBrace = ')') := by decide
  have f5 : ¬(chLBrace = ']') := by decide
  have f6 : ¬(chLBrace = '\n') := by decide
  have f7 : ¬(chRBrace = chLBrace) := by decide
  have f8 : ¬(chRBrace = '(') := by decide
  have f9 : ¬(chRBrace = '[') := by decide
  have f10 : ¬(chRBrace = '\n') := by decide
  simp only [FoldAhkDoc]
  rw [show getLine docFold 0 = 0 from by decide]
  rw [show levelAt [L, 0, 0] 0 = L from rfl]
  rw [hmask]
  rw [show List.range' 0 14 = [0, 1, 2, 3, 4, 5, 6, 7, 8, 9, 10, 11, 12, 13] from by decide]
  simp only [List.foldl_cons, List.foldl_nil]
  rw [show foldStep docFold stylesFold 14 0 ⟨0, L, L, chNul, [L, 0, 0]⟩
        = ⟨0, L, L, 'a', [L, 0, 0]⟩ from by
    simp [foldStep, f1, f2, f3, f4, f5, f6, f7, f8, f9, f10,
      (by decide : charAt docFold 0 = 'a'),
      (by decide : styleAt stylesFold 0 = .DEFAULT)]]
  rw [show foldStep docFold stylesFold 14 1 ⟨0, L, L, 'a', [L, 0, 0]⟩
        = ⟨0, L, L + 1, '(', [L, 0, 0]⟩ from by
    simp [foldStep, f1, f2, f3, f4, f5, f6, f7, f8, f9, f10,
      (by decide : charAt docFold 1 = '('),
      (by decide : styleAt stylesFold 1 = .FOLD)]]
  rw [show foldStep docFold stylesFold 14 2 ⟨0, L, L + 1, '(', [L, 0, 0]⟩
        = ⟨0, L, L, ')', [L, 0, 0]⟩ from by
    simp [foldStep, f1, f2, f3, f4, f5, f6, f7, f8, f9, f10,
      (by decide : charAt docFold 2 = ')'),
      (by decide : styleAt stylesFold 2 = .FOLD)]]
  rw [show foldStep docFold stylesFold 14 3 ⟨0, L, L, ')', [L, 0, 0]⟩
        = ⟨0, L, L, ' ', [L, 0, 0]⟩ from by
    simp [foldStep, f1, f2, f3, f4, f5, f6, f7, f8, f9, f10,
      (by decide : charAt docFold 3 = ' '),
      (by decide : styleAt stylesFold 3 = .DEFAULT)]]
  rw [show foldStep docFold stylesFold 14 4 ⟨0, L, L, ' ', [L, 0, 0]⟩
        = ⟨0, L, L + 1, chLBrace, [L, 0, 0]⟩ from by
    simp [foldStep, f1, f2, f3, f4, f5, f6, f7, f8, f9, f10,
      (by decide : charAt docFold 4 = chLBrace),
      (by decide : styleAt stylesFold 4 = .FOLD)]]
  rw [show foldStep docFold stylesFold 14 5 ⟨0, L, L + 1, chLBrace, [L, 0, 0]⟩
        = ⟨1, L + 1, L + 1, '\n', [Int.lor L 8192, 0, 0]⟩ from by
    simp [foldStep, f1, f2, f3, f4, f5, f6, f7, f8, f9, f10,
      (by decide : charAt docFold 5 = '\n'),
      (by decide : styleAt stylesFold 5 = .DEFAULT), levelAt, hgt, hne]]
  rw [show foldStep docFold stylesFold 14 6 ⟨1, L + 1, L + 1, '\n', [Int.lor L 8192, 0, 0]⟩
        = ⟨1, L + 1, L + 1, ' ', [Int.lor L 8192, 0, 0]⟩ from by
    simp [foldStep, f1, f2, f3, f4, f5, f6, f7, f8, f9, f10,
      (by decide : charAt docFold 6 = ' '),
      (by decide : styleAt stylesFold 6 = .DEFAULT)]]
  rw [show foldStep docFold stylesFold 14 7 ⟨1, L + 1, L + 1, ' ', [Int.lor L 8192, 0, 0]⟩
        = ⟨1, L + 1, L + 1, ' ', [Int.lor L 8192, 0, 0]⟩ from by
    simp [foldStep, f1, f2, f3, f4, f5, f6, f7, f8, f9, f10,
      (by decide : charAt docFold 7 = ' '),
      (by decide : styleAt stylesFold 7 = .DEFAULT)]]
  rw [show foldStep docFold stylesFold 14 8 ⟨1, L + 1, L + 1, ' ', [Int.lor L 8192, 0, 0]⟩
        = ⟨1, L + 1, L + 1, 'b', [Int.lor L 8192, 0, 0]⟩ from by
    simp [foldStep, f1, f2, f3, f4, f5, f6, f7, f8, f9, f10,
      (by decide : charAt docFold 8 = 'b'),
      (by decide : styleAt stylesFold 8 = .DEFAULT)]]
  rw [show foldStep docFold stylesFold 14 9 ⟨1, L + 1, L + 1, 'b', [Int.lor L 8192, 0, 0]⟩
        = ⟨1, L + 1, L + 1 + 1, '(', [Int.lor L 8192, 0, 0]⟩ from by
    simp [foldStep, f1, f2, f3, f4, f5, f6, f7, f8, f9, f10,
      (by decide : charAt docFold 9 = '('),
      (by decide : styleAt stylesFold 9 = .FOLD)]]
  rw [show foldStep docFold stylesFold 14 10
          ⟨1, L + 1, L + 1 + 1, '(', [Int.lor L 8192, 0, 0]⟩
        = ⟨1, L + 1, L + 1, ')', [Int.lor L 8192, 0, 0]⟩ from by
    simp [foldStep, f1, f2, f3, f4, f5, f6, f7, f8, f9, f10,
      (by decide : charAt docFold 10 = ')'),
      (by decide : styleAt stylesFold 10 = .FOLD)]]
  rw [show foldStep docFold stylesFold 14 11 ⟨1, L + 1, L + 1, ')', [Int.lor L 8192, 0, 0]⟩
        = ⟨2, L + 1, L + 1, '\n', [Int.lor L 8192, L + 1, 0]⟩ from by
    simp [foldStep, f1, f2, f3, f4, f5, f6, f7, f8, f9, f10,
      (by decide : charAt docFold 11 = '\n'),
      (by decide : styleAt stylesFold 11 = .DEFAULT), levelAt, hngt, hne1]]
  rw [show foldStep docFold stylesFold 14 12
          ⟨2, L + 1, L + 1, '\n', [Int.lor L 8192, L + 1, 0]⟩
        = ⟨2, L + 1, L, chRBrace, [Int.lor L 8192, L + 1, 0]⟩ from by
    simp [foldStep, f1, f2, f3, f4, f5, f6, f7, f8, f9, f10,
      (by decide : charAt docFold 12 = chRBrace),
      (by decide : styleAt stylesFold 12 = .FOLD)]]
  rw [show foldStep docFold stylesFold 14 13
          ⟨2, L + 1, L, chRBrace, [Int.lor L 8192, L + 1, 0]⟩
        = ⟨3, L, L, '\n', [Int.lor L 8192, L + 1, L + 1]⟩ from by
    simp [foldStep, f1, f2, f3, f4, f5, f6, f7, f8, f9, f10,
      (by decide : charAt docFold 13 = '\n'),
      (by decide : styleAt stylesFold 13 = .DEFAULT), levelAt, hngt2, hne1]]

/-- C8 witness: the amended fold facts instantiated at the standard base
level `SC_FOLDLEVELBASE` = 1024. -/
theorem C8_fold_levels_before_deltas_witness :
    FoldAhkDoc docFold stylesFold 0 14 [1024, 0, 0]
      = [Int.lor 1024 8192, 1024 + 1, 1024 + 1] :=
  C8_fold_levels_before_deltas 1024 (by decide) (by decide)
